import Mathlib

/-!
Verification of the Kyros fractal image generator (`src/main.rs`).

The core of the program is pure: a coordinate mapper from pixel indices to the
complex plane, an escape-time iteration loop, a registry of iteration formulas,
and an iteration-count-to-color mapping.  We embed these shallowly:

* Rust `f64` arithmetic is modelled by exact rational arithmetic (`ℚ`).  Every
  numeric property stated by the specification is an exact-arithmetic property
  ("within floating-point tolerance"), and all the operations involved are
  exact on the inputs of interest, so `ℚ` is a faithful model at the level of
  the claims — with one exception that is modelled explicitly: the `u64 → f64`
  casts in the color selection (`iteration as f64`, `max_i as f64`) are lossy
  above `2^53`, and `f64_of_u64` embeds them faithfully (round to nearest,
  ties to even, per the Rust reference), because the branch chosen by
  `z_output == max_i as f64` genuinely depends on that rounding.
* Rust `u32`/`u64` counters are modelled by `ℕ`.  No arithmetic in the modelled
  code can overflow: the iteration counter is bounded by `max_i` (the loop
  breaks at equality before incrementing past it) and the pixel indices are
  bounded by the image dimensions, so no `% 2^w` reduction is needed.
* The `math` module (`math::structs::Complex`, `math::formula::*`) and the
  external `hsv` crate are referenced by `main.rs` but their sources are not
  part of the file set; those definitions are modelled from the specification
  and are marked `Modelled from the spec:` in their doc comments.
* The imperative pixel loop of `eval_function` writes each pixel of the buffer
  exactly once (the initial all-white fill is overwritten at every position),
  so the buffer is modelled as the row-major grid of per-pixel results.
-/

namespace structs

/-- Modelled from the spec: `Complex` is a pair of 64-bit floating point fields
`(real, imaginary)`; we use exact rationals.  The source's
`math::structs::Complex` (module `math` is not among the provided files). -/
structure Complex where
  real : ℚ
  imaginary : ℚ
deriving DecidableEq, Repr

/-- Modelled from the spec: `add(a,b)` — componentwise complex addition. -/
def Complex.add (a b : Complex) : Complex :=
  ⟨a.real + b.real, a.imaginary + b.imaginary⟩

/-- Modelled from the spec: `multiply(a,b)` — standard complex multiplication,
`real = a.re*b.re − a.im*b.im`, `imaginary = a.re*b.im + a.im*b.re`. -/
def Complex.multiply (a b : Complex) : Complex :=
  ⟨a.real * b.real - a.imaginary * b.imaginary,
   a.real * b.imaginary + a.imaginary * b.real⟩

/-- Modelled from the spec: `exceeds_radius(self, r)` is true iff
`real² + imaginary² > r²`.  The source calls this method `is_greater`
(`z.is_greater(2.0)` in `eval_function`). -/
def Complex.is_greater (self : Complex) (r : ℚ) : Bool :=
  decide (self.real ^ 2 + self.imaginary ^ 2 > r ^ 2)

end structs

/-- The alias `type GenDataType = structs::Complex;` of `main.rs`. -/
def GenDataType := structs.Complex

namespace formula

/-- Modelled from the spec: the `SD` built-in formula, "standard quadratic
z² + c".  The exact mathematical form is an implementation choice per named
variant and is irrelevant to every claim; only the registry key matters. -/
def SD (c z : structs.Complex) : GenDataType :=
  (z.multiply z).add c

/-- Modelled from the spec: the `R` built-in formula, "a reciprocal variant".
Exact form unspecified by the spec and irrelevant to every claim. -/
def R (c z : structs.Complex) : GenDataType :=
  let w := z.multiply z
  let n := w.real ^ 2 + w.imaginary ^ 2
  (structs.Complex.mk (w.real / n) (-(w.imaginary / n))).add c

/-- Modelled from the spec: the `BS` built-in formula, "a burning-ship-style
absolute-value variant".  Exact form unspecified by the spec and irrelevant to
every claim. -/
def BS (c z : structs.Complex) : GenDataType :=
  ((structs.Complex.mk |z.real| |z.imaginary|).multiply
    (structs.Complex.mk |z.real| |z.imaginary|)).add c

/-- Modelled from the spec: the `SYM` built-in formula, "a symmetric variant".
Exact form unspecified by the spec and irrelevant to every claim. -/
def SYM (c z : structs.Complex) : GenDataType :=
  ((z.multiply z).add (c.multiply c)).add c

end formula

/-- The `Config` struct of `main.rs`: image index, optional initial `c`,
width, height, iteration cap, and formula name. -/
structure Config where
  count : ℕ
  c_init : Option structs.Complex
  size_x : ℕ
  size_y : ℕ
  max_i : ℕ
  gen_formula : String
deriving DecidableEq, Repr

/-- The clap-parsed `Args` struct of `main.rs`: pixel count, iteration count
and formula name as given on the command line. -/
structure Args where
  pixels : ℕ
  iterations : ℕ
  formula : String
deriving DecidableEq, Repr

/-- Function `interactive_config` (`main.rs`): returns `Config::default()` unchanged —
every numeric field zero, no `c_init`, empty formula name. -/
def interactive_config : Config :=
  { count := 0, c_init := none, size_x := 0, size_y := 0, max_i := 0,
    gen_formula := "" }

/-- Function `get_math_value(value, max_ref)` (`main.rs`), the spec's coordinate mapper:
`4.0 * value / (max_ref - 1.0) - 2.0`, here over exact rationals. -/
def get_math_value (value max_ref : ℕ) : ℚ :=
  4 * (value : ℚ) / ((max_ref : ℚ) - 1) - 2

/-- Truncating floating-point remainder, `a % b` of Rust `f64`, for the
nonnegative dividends and positive divisors used here (where truncation
and floor agree). -/
def fmod (a b : ℚ) : ℚ := a - b * ⌊a / b⌋

/-- Modelled from the spec: one output channel of the HSV→RGB conversion,
"each channel scaled to 0–255" — scale to 0–255 and round to the nearest
integer. -/
def to_byte (q : ℚ) : ℕ := (⌊q * 255 + 1 / 2⌋).toNat

/-- Modelled from the spec: `hsv_to_rgb` of the external `hsv` crate —
"standard HSV→RGB conversion, each channel scaled to 0–255": chroma
`c = v·s`, intermediate `x = c·(1 − |((h/60) mod 2) − 1|)`, offset `m = v − c`,
with the six 60-degree hue sectors. -/
def hsv_to_rgb (hue saturation v : ℚ) : ℕ × ℕ × ℕ :=
  let c := v * saturation
  let x := c * (1 - |fmod (hue / 60) 2 - 1|)
  let m := v - c
  let rgb : ℚ × ℚ × ℚ :=
    if hue < 60 then (c, x, 0)
    else if hue < 120 then (x, c, 0)
    else if hue < 180 then (0, c, x)
    else if hue < 240 then (0, x, c)
    else if hue < 300 then (x, 0, c)
    else (c, 0, x)
  (to_byte (rgb.1 + m), to_byte (rgb.2.1 + m), to_byte (rgb.2.2 + m))

/-- The Rust `u64 as f64` cast (`iteration as f64`, `max_i as f64` in
`main.rs`): the closest `f64`, ties rounded to even (Rust reference,
numeric cast semantics).  For a `u64` the result is always a nonnegative
integer, so the cast is a map `ℕ → ℕ`: values below `2^53` are exact, larger
values are rounded to 53 significant bits — with `s = log2 n − 52` the value
`n` is rounded to the nearest multiple of `2^s`, ties to the even quotient.
No `u64` reaches `f64`'s exponent limit, so there is no overflow case. -/
def f64_of_u64 (n : ℕ) : ℕ :=
  let s := Nat.log2 n - 52
  let q := n / 2 ^ s
  let r := n % 2 ^ s
  if 2 * r < 2 ^ s then q * 2 ^ s
  else if 2 ^ s < 2 * r then (q + 1) * 2 ^ s
  else (if q % 2 = 0 then q else q + 1) * 2 ^ s

/-- The color selection of `eval_function` (`main.rs` lines 138–148):
`z_output = iteration as f64`; white when `z_output == 0.`, black when
`z_output == max_i as f64`, otherwise `hsv_to_rgb(9.0 * z_output % 360.0, 1, 1)`.
The spec names this map `colorize(count, max_iterations)`.  Both `u64 → f64`
casts are modelled faithfully by `f64_of_u64`; above `2^53` they are lossy,
so the black test can fire for a count different from the cap. -/
def colorize (iteration max_i : ℕ) : ℕ × ℕ × ℕ :=
  let z_output : ℚ := (f64_of_u64 iteration : ℚ)
  if z_output = 0 then (255, 255, 255)
  else if z_output = (f64_of_u64 max_i : ℚ) then (0, 0, 0)
  else hsv_to_rgb (fmod (9 * z_output) 360) 1 1

/-- The per-pixel escape loop of `eval_function` (`main.rs` lines 126–132),
with `fuel = max_i − iteration`:
`loop { if iteration == max_i break; if z.is_greater(2.0) break;
z = generator_function(c, z); iteration += 1 }`.
Returns how many further iterations the loop performs from state `z`. -/
def eval_loop (generator_function : structs.Complex → structs.Complex → GenDataType)
    (c : structs.Complex) : ℕ → structs.Complex → ℕ
  | 0, _ => 0
  | fuel + 1, z =>
    if z.is_greater 2 then 0
    else eval_loop generator_function c fuel (generator_function c z) + 1

/-- The spec's `evaluate(c, z0, formula, max_iterations)`: the escape-time
iteration count for one pixel, i.e. the final value of `iteration` in the
loop of `eval_function`. -/
def evaluate (generator_function : structs.Complex → structs.Complex → GenDataType)
    (c z : structs.Complex) (max_i : ℕ) : ℕ :=
  eval_loop generator_function c max_i z

/-- The value of `z` after `k` passes of the loop body `z = formula(c, z)`. -/
def z_after (generator_function : structs.Complex → structs.Complex → GenDataType)
    (c : structs.Complex) (z : structs.Complex) : ℕ → structs.Complex
  | 0 => z
  | k + 1 => z_after generator_function c (generator_function c z) k

/-- The initial `z` of pixel `(row i, column j)` in `eval_function`
(`main.rs` lines 116–119): `real = get_math_value(j, size_x)`,
`imaginary = get_math_value(i, size_y)`. -/
def z_init (config : Config) (i j : ℕ) : structs.Complex :=
  ⟨get_math_value j config.size_x, get_math_value i config.size_y⟩

/-- Function `eval_function` (`main.rs`): the finished image as the row-major grid of
pixel colors.  Per pixel: compute the initial `z`, pick `c` (the fixed
`c_init` when present, otherwise this pixel's `z`), run the escape loop, and
color the resulting count.  The initial all-white buffer fill is overwritten
at every pixel, so the grid of per-pixel results is the final buffer. -/
def eval_function (config : Config)
    (generator_function : structs.Complex → structs.Complex → GenDataType) :
    List (List (ℕ × ℕ × ℕ)) :=
  (List.range config.size_y).map fun i =>
    (List.range config.size_x).map fun j =>
      let z := z_init config i j
      let c : structs.Complex :=
        match config.c_init with
        | some value => value
        | none => z
      colorize (evaluate generator_function c z config.max_i) config.max_i

/-- The generator registry of `main` (`main.rs` lines 185–189): a map from
name to formula with the four keys `"SD"`, `"R"`, `"BS"`, `"SYM"`, modelled
as an association list (the keys are distinct, so lookup agrees with the
`HashMap`). -/
def generators : List (String × (structs.Complex → structs.Complex → GenDataType)) :=
  [("SD", formula.SD), ("R", formula.R), ("BS", formula.BS), ("SYM", formula.SYM)]

/-- Outcome of `main` after the formula lookup: either the fatal
`error_exit` path followed by `std::process::exit(1)`, or a rendered image. -/
inductive MainResult where
  | fatalError (msg : String) (code : ℕ)
  | rendered (img : List (List (ℕ × ℕ × ℕ)))
deriving DecidableEq

/-- The configuration `main` builds (`main.rs` lines 165–180): the
interactive branch is dead (`if false`), so the hard-coded `Config` is used;
the parsed CLI arguments are not consulted. -/
def main_config (_cli_args : Args) : Config :=
  if false then interactive_config
  else
    { count := 0, c_init := none, size_x := 256, size_y := 256, max_i := 1024,
      gen_formula := "SD" }

/-- The formula-lookup-and-render tail of `main` (`main.rs` lines 191–208):
look `config.gen_formula` up in the registry; on failure print the error and
exit with code 1, otherwise render via `eval_function`. -/
def run_main (config : Config) : MainResult :=
  match List.lookup config.gen_formula generators with
  | some function_found => MainResult.rendered (eval_function config function_found)
  | none => MainResult.fatalError "Function generation method not found!" 1

/-- Unfolding lemma: zero passes leave `z` unchanged. -/
theorem z_after_zero (f : structs.Complex → structs.Complex → GenDataType)
    (c z : structs.Complex) : z_after f c z 0 = z := rfl

/-- Unfolding lemma: one more pass applies the formula first. -/
theorem z_after_succ (f : structs.Complex → structs.Complex → GenDataType)
    (c z : structs.Complex) (k : ℕ) :
    z_after f c z (k + 1) = z_after f c (f c z) k := rfl

/-- The loop performs at most `fuel` further iterations. -/
theorem eval_loop_le (f : structs.Complex → structs.Complex → GenDataType)
    (c : structs.Complex) (n : ℕ) : ∀ z : structs.Complex, eval_loop f c n z ≤ n := by
  induction n with
  | zero => intro z; simp [eval_loop]
  | succ n ih =>
    intro z
    by_cases hz : z.is_greater 2 = true
    · simp [eval_loop, hz]
    · simp only [eval_loop, hz, if_false]
      exact Nat.succ_le_succ (ih _)

/-- When the loop stops short of its fuel, the final `z` escaped. -/
theorem eval_loop_escaped (f : structs.Complex → structs.Complex → GenDataType)
    (c : structs.Complex) (n : ℕ) :
    ∀ z : structs.Complex, eval_loop f c n z < n →
      (z_after f c z (eval_loop f c n z)).is_greater 2 = true := by
  induction n with
  | zero => intro z h; exact absurd h (Nat.not_lt_zero _)
  | succ n ih =>
    intro z h
    by_cases hz : z.is_greater 2 = true
    · simp [eval_loop, hz, z_after_zero]
    · simp [eval_loop, hz] at h ⊢
      rw [z_after_succ]
      exact ih (f c z) (by omega)

/-- Before the returned count, no intermediate `z` had escaped. -/
theorem eval_loop_not_escaped (f : structs.Complex → structs.Complex → GenDataType)
    (c : structs.Complex) (n : ℕ) :
    ∀ (z : structs.Complex) (k : ℕ), k < eval_loop f c n z →
      (z_after f c z k).is_greater 2 = false := by
  induction n with
  | zero => intro z k h; simp [eval_loop] at h
  | succ n ih =>
    intro z k h
    by_cases hz : z.is_greater 2 = true
    · simp [eval_loop, hz] at h
    · simp [eval_loop, hz] at h
      cases k with
      | zero =>
        rw [z_after_zero]
        exact Bool.not_eq_true _ |>.mp hz
      | succ k =>
        rw [z_after_succ]
        exact ih (f c z) k (by omega)

/-- Claim C1: for every `c`, `z0`, formula and finite `max_iterations`, the
escape-time loop terminates (`evaluate` is a total function) and returns a
count in `0..=max_iterations`; whenever the count is below the cap the final
`z` exceeded radius 2.0 (Escaped); no `z` before the returned count had
escaped — each pass required `iteration < max_iterations` and not
`z.is_greater(2.0)` before applying the formula and incrementing — and the
count equals `max_iterations` exactly when the cap was reached without the
escape test ever firing (Capped). -/
theorem spec_c1_escape_loop (generator_function : structs.Complex → structs.Complex → GenDataType)
    (c z : structs.Complex) (max_i : ℕ) :
    evaluate generator_function c z max_i ≤ max_i ∧
    (evaluate generator_function c z max_i < max_i →
      (z_after generator_function c z
        (evaluate generator_function c z max_i)).is_greater 2 = true) ∧
    (∀ k, k < evaluate generator_function c z max_i →
      (z_after generator_function c z k).is_greater 2 = false) ∧
    (evaluate generator_function c z max_i = max_i ↔
      ∀ k, k < max_i → (z_after generator_function c z k).is_greater 2 = false) := by
  refine ⟨eval_loop_le _ _ _ _, eval_loop_escaped _ _ _ _, eval_loop_not_escaped _ _ _ _, ?_, ?_⟩
  · intro heq k hk
    exact eval_loop_not_escaped _ _ _ _ k (heq ▸ hk)
  · intro hall
    by_contra hne
    have hlt : evaluate generator_function c z max_i < max_i :=
      lt_of_le_of_ne (eval_loop_le _ _ _ _) hne
    have h1 := eval_loop_escaped generator_function c max_i z hlt
    have h2 := hall _ hlt
    simp only [evaluate] at h2
    rw [h1] at h2
    exact Bool.noConfusion h2

/-- Closed instance of `spec_c1_escape_loop` at a concrete input. -/
theorem spec_c1_escape_loop_witness :
    evaluate formula.SD ⟨0, 0⟩ ⟨0, 0⟩ 3 ≤ 3 ∧
    (evaluate formula.SD ⟨0, 0⟩ ⟨0, 0⟩ 3 < 3 →
      (z_after formula.SD ⟨0, 0⟩ ⟨0, 0⟩
        (evaluate formula.SD ⟨0, 0⟩ ⟨0, 0⟩ 3)).is_greater 2 = true) ∧
    (∀ k, k < evaluate formula.SD ⟨0, 0⟩ ⟨0, 0⟩ 3 →
      (z_after formula.SD ⟨0, 0⟩ ⟨0, 0⟩ k).is_greater 2 = false) ∧
    (evaluate formula.SD ⟨0, 0⟩ ⟨0, 0⟩ 3 = 3 ↔
      ∀ k, k < 3 → (z_after formula.SD ⟨0, 0⟩ ⟨0, 0⟩ k).is_greater 2 = false) :=
  spec_c1_escape_loop formula.SD ⟨0, 0⟩ ⟨0, 0⟩ 3

/-- Claim C8: whenever the initial `z0` already exceeds radius 2.0, the
evaluator returns iteration count 0 without applying the formula, for every
`c`, formula and iteration cap. -/
theorem spec_c8_immediate_escape
    (generator_function : structs.Complex → structs.Complex → GenDataType)
    (c z : structs.Complex) (max_i : ℕ) (h : z.is_greater 2 = true) :
    evaluate generator_function c z max_i = 0 := by
  cases max_i with
  | zero => rfl
  | succ n => simp [evaluate, eval_loop, h]

/-- Closed instance of `spec_c8_immediate_escape`: `z0 = 3 + 0i` exceeds
radius 2, and the evaluator returns 0. -/
theorem spec_c8_immediate_escape_witness :
    (structs.Complex.mk 3 0).is_greater 2 = true ∧
    evaluate formula.SD ⟨0, 0⟩ ⟨3, 0⟩ 5 = 0 := by
  have h : (structs.Complex.mk 3 0).is_greater 2 = true := by
    simp only [structs.Complex.is_greater, decide_eq_true_eq]
    norm_num
  exact ⟨h, spec_c8_immediate_escape formula.SD ⟨0, 0⟩ ⟨3, 0⟩ 5 h⟩

/-- Pixel `(row i, column j)` of the rendered grid is the colorized escape
count for this pixel's `z0`, with `c` the fixed `c_init` when present and
`z0` itself otherwise. -/
theorem eval_function_pixel (config : Config)
    (f : structs.Complex → structs.Complex → GenDataType) (i j : ℕ)
    (hi : i < config.size_y) (hj : j < config.size_x) :
    ((eval_function config f)[i]? >>= fun row => row[j]?) =
      some (colorize
        (evaluate f
          (match config.c_init with
           | some value => value
           | none => z_init config i j)
          (z_init config i j) config.max_i)
        config.max_i) := by
  unfold eval_function
  simp [List.getElem?_map, List.getElem?_range, hi, hj]

/-- Claim C2: when `c_init` is absent (Mandelbrot-mode) the `c` handed to the
evaluator at every pixel equals that pixel's initial `z0`; when `c_init` is
present (Julia-mode) every pixel uses that same fixed `c` while the initial
`z0` still varies per pixel.  The match on `config.c_init` is independent of
the pixel indices in the Julia arm and returns the per-pixel `z0` in the
Mandelbrot arm. -/
theorem spec_c2_mode_selection (config : Config)
    (f : structs.Complex → structs.Complex → GenDataType) (i j : ℕ)
    (hi : i < config.size_y) (hj : j < config.size_x) :
    (config.c_init = none →
      ((eval_function config f)[i]? >>= fun row => row[j]?) =
        some (colorize
          (evaluate f (z_init config i j) (z_init config i j) config.max_i)
          config.max_i)) ∧
    (∀ value : structs.Complex, config.c_init = some value →
      ((eval_function config f)[i]? >>= fun row => row[j]?) =
        some (colorize
          (evaluate f value (z_init config i j) config.max_i)
          config.max_i)) := by
  constructor
  · intro h
    rw [eval_function_pixel config f i j hi hj, h]
  · intro value h
    rw [eval_function_pixel config f i j hi hj, h]

/-- A concrete Mandelbrot-mode configuration (no `c_init`), 2×2 pixels. -/
def config_mandelbrot : Config :=
  { count := 0, c_init := none, size_x := 2, size_y := 2, max_i := 1,
    gen_formula := "SD" }

/-- Closed instance of `spec_c2_mode_selection` at pixel (0,0) of a concrete
Mandelbrot-mode configuration. -/
theorem spec_c2_mode_selection_witness :
    0 < config_mandelbrot.size_y ∧ 0 < config_mandelbrot.size_x ∧
    ((config_mandelbrot.c_init = none →
      ((eval_function config_mandelbrot formula.SD)[0]? >>= fun row => row[0]?) =
        some (colorize
          (evaluate formula.SD (z_init config_mandelbrot 0 0)
            (z_init config_mandelbrot 0 0) config_mandelbrot.max_i)
          config_mandelbrot.max_i)) ∧
    (∀ value : structs.Complex, config_mandelbrot.c_init = some value →
      ((eval_function config_mandelbrot formula.SD)[0]? >>= fun row => row[0]?) =
        some (colorize
          (evaluate formula.SD value (z_init config_mandelbrot 0 0) config_mandelbrot.max_i)
          config_mandelbrot.max_i))) :=
  ⟨by decide, by decide,
    spec_c2_mode_selection config_mandelbrot formula.SD 0 0 (by decide) (by decide)⟩

/-- Below `2^53` (inclusive) the `u64 → f64` cast is exact. -/
theorem f64_of_u64_eq_self (n : ℕ) (h : n ≤ 2 ^ 53) : f64_of_u64 n = n := by
  rcases lt_or_eq_of_le h with hlt | heq
  · have hlog : Nat.log2 n - 52 = 0 := by
      rcases Nat.eq_zero_or_pos n with rfl | hn
      · simp [Nat.log2_eq_log_two, Nat.log_zero_right]
      · have h53 : Nat.log2 n < 53 := by
          rw [Nat.log2_eq_log_two]
          exact Nat.log_lt_of_lt_pow hn.ne' hlt
        omega
    simp [f64_of_u64, hlog, Nat.mod_one, Nat.div_one]
  · subst heq
    have hlog : Nat.log2 (2 ^ 53) = 53 := by
      rw [Nat.log2_eq_log_two]
      exact Nat.log_eq_of_pow_le_of_lt_pow (le_refl _) (by norm_num)
    simp only [f64_of_u64, hlog]
    norm_num

/-- The cast of 0 is 0. -/
theorem f64_of_u64_zero : f64_of_u64 0 = 0 :=
  f64_of_u64_eq_self 0 (by norm_num)

/-- The cast of a positive `u64` is positive (the rounded value is at least
the power of two below the input). -/
theorem f64_of_u64_pos (n : ℕ) (h : 0 < n) : 0 < f64_of_u64 n := by
  have hpow : 0 < 2 ^ (Nat.log2 n - 52) := pow_pos (by norm_num) _
  have h2s : 2 ^ (Nat.log2 n - 52) ≤ n := by
    calc 2 ^ (Nat.log2 n - 52)
        ≤ 2 ^ Nat.log2 n := Nat.pow_le_pow_right (by norm_num) (Nat.sub_le _ _)
      _ ≤ n := by
          rw [Nat.log2_eq_log_two]
          exact Nat.pow_log_le_self 2 h.ne'
  have hq : 1 ≤ n / 2 ^ (Nat.log2 n - 52) := (Nat.one_le_div_iff hpow).mpr h2s
  simp only [f64_of_u64]
  split
  · exact Nat.mul_pos hq hpow
  · split
    · exact Nat.mul_pos (Nat.succ_pos _) hpow
    · refine Nat.mul_pos ?_ hpow
      split
      · exact hq
      · exact Nat.succ_pos _

/-- Claim C3: the color mapper sends count 0 to white and the cap to black.
Both facts hold under the faithful cast model for every positive cap: only 0
casts to 0.0, and the cap always compares equal to its own cast. -/
theorem spec_c3_color_endpoints (max_i : ℕ) (h : 0 < max_i) :
    colorize 0 max_i = (255, 255, 255) ∧ colorize max_i max_i = (0, 0, 0) := by
  constructor
  · simp [colorize, f64_of_u64_zero]
  · have hp : 0 < f64_of_u64 max_i := f64_of_u64_pos max_i h
    have h0 : ((f64_of_u64 max_i : ℚ)) ≠ 0 := Nat.cast_ne_zero.mpr hp.ne'
    simp [colorize, h0]

/-- Closed instance of `spec_c3_color_endpoints` at the hard-coded cap 1024. -/
theorem spec_c3_color_endpoints_witness :
    0 < 1024 ∧ colorize 0 1024 = (255, 255, 255) ∧ colorize 1024 1024 = (0, 0, 0) :=
  ⟨by norm_num, spec_c3_color_endpoints 1024 (by norm_num)⟩

/-- Claim C4: the coordinate mapper computes
`4.0 * pixel_index / (axis_length − 1) − 2.0`, and for `axis_length ≥ 2` it
sends index 0 to −2.0 and index `axis_length − 1` to 2.0 (exactly, in the
rational model). -/
theorem spec_c4_coordinate_endpoints (axis_length : ℕ) (h : 2 ≤ axis_length) :
    (∀ value : ℕ,
      get_math_value value axis_length =
        4 * (value : ℚ) / ((axis_length : ℚ) - 1) - 2) ∧
    get_math_value 0 axis_length = -2 ∧
    get_math_value (axis_length - 1) axis_length = 2 := by
  have h2 : (2 : ℚ) ≤ (axis_length : ℚ) := by exact_mod_cast h
  have hq : (axis_length : ℚ) - 1 ≠ 0 := by
    have : (1 : ℚ) ≤ (axis_length : ℚ) - 1 := by linarith
    exact ne_of_gt (by linarith)
  refine ⟨fun value => rfl, ?_, ?_⟩
  · simp [get_math_value]
  · have h1 : 1 ≤ axis_length := le_trans (by norm_num) h
    have hcast : ((axis_length - 1 : ℕ) : ℚ) = (axis_length : ℚ) - 1 := by
      rw [Nat.cast_sub h1, Nat.cast_one]
    rw [get_math_value, hcast, mul_div_assoc, div_self hq]
    norm_num

/-- Closed instance of `spec_c4_coordinate_endpoints` at the hard-coded axis
length 256. -/
theorem spec_c4_coordinate_endpoints_witness :
    2 ≤ 256 ∧
    get_math_value 0 256 = -2 ∧ get_math_value 255 256 = 2 :=
  ⟨by norm_num, (spec_c4_coordinate_endpoints 256 (by norm_num)).2.1,
    (spec_c4_coordinate_endpoints 256 (by norm_num)).2.2⟩

/-- The spec's sample value: count 10 has hue 90° and maps to (128, 255, 0). -/
theorem colorize_sample_ten : colorize 10 1024 = (128, 255, 0) := by
  have h1 : f64_of_u64 10 = 10 := f64_of_u64_eq_self _ (by norm_num)
  have h2 : f64_of_u64 1024 = 1024 := f64_of_u64_eq_self _ (by norm_num)
  norm_num [colorize, h1, h2, hsv_to_rgb, fmod, to_byte, abs_of_pos]
  constructor <;> decide

/-- Claim C10: with `max_iterations = 0` the loop breaks immediately, every
pixel's count is 0, and the `count == 0` branch of the color mapper fires
before the `count == max_iterations` branch (which also matches), so every
pixel of the image is white. -/
theorem spec_c10_zero_cap_white (config : Config)
    (f : structs.Complex → structs.Complex → GenDataType) (i j : ℕ)
    (hm : config.max_i = 0) (hi : i < config.size_y) (hj : j < config.size_x) :
    (∀ c z : structs.Complex, evaluate f c z config.max_i = 0) ∧
    colorize 0 config.max_i = (255, 255, 255) ∧
    ((eval_function config f)[i]? >>= fun row => row[j]?) =
      some (255, 255, 255) := by
  refine ⟨?_, ?_, ?_⟩
  · intro c z
    rw [hm]
    rfl
  · rw [hm]
    simp [colorize, f64_of_u64_zero]
  · rw [eval_function_pixel config f i j hi hj, hm]
    simp [evaluate, eval_loop, colorize, f64_of_u64_zero]

/-- A concrete configuration with iteration cap 0. -/
def config_zero_cap : Config :=
  { count := 0, c_init := none, size_x := 2, size_y := 2, max_i := 0,
    gen_formula := "SD" }

/-- Closed instance of `spec_c10_zero_cap_white` at pixel (0,0) of a 2×2
render with cap 0. -/
theorem spec_c10_zero_cap_white_witness :
    config_zero_cap.max_i = 0 ∧ 0 < config_zero_cap.size_y ∧ 0 < config_zero_cap.size_x ∧
    ((∀ c z : structs.Complex, evaluate formula.SD c z config_zero_cap.max_i = 0) ∧
    colorize 0 config_zero_cap.max_i = (255, 255, 255) ∧
    ((eval_function config_zero_cap formula.SD)[0]? >>= fun row => row[0]?) =
      some (255, 255, 255)) :=
  ⟨rfl, by decide, by decide,
    spec_c10_zero_cap_white config_zero_cap formula.SD 0 0 rfl (by decide) (by decide)⟩

/-- Claim C6: looking any name outside the four registered keys up in the
generator registry fails, and `main` then takes the fatal path — the error
message is surfaced and the process exits with code 1; no default formula is
substituted and no image is rendered. -/
theorem spec_c6_formula_not_found (name : String)
    (h : name ∉ (["SD", "R", "BS", "SYM"] : List String)) :
    List.lookup name generators = none ∧
    ∀ config : Config, config.gen_formula = name →
      run_main config =
        MainResult.fatalError "Function generation method not found!" 1 := by
  simp only [List.mem_cons, List.not_mem_nil, or_false] at h
  push_neg at h
  obtain ⟨h1, h2, h3, h4⟩ := h
  have b1 : (name == "SD") = false := beq_eq_false_iff_ne.mpr h1
  have b2 : (name == "R") = false := beq_eq_false_iff_ne.mpr h2
  have b3 : (name == "BS") = false := beq_eq_false_iff_ne.mpr h3
  have b4 : (name == "SYM") = false := beq_eq_false_iff_ne.mpr h4
  have hlook : List.lookup name generators = none := by
    simp [generators, List.lookup, b1, b2, b3, b4]
  refine ⟨hlook, ?_⟩
  intro config hc
  unfold run_main
  rw [hc, hlook]

/-- Closed instance of `spec_c6_formula_not_found` at the spec's sample
name `"XYZ"`. -/
theorem spec_c6_formula_not_found_witness :
    ("XYZ" : String) ∉ (["SD", "R", "BS", "SYM"] : List String) ∧
    (List.lookup ("XYZ" : String) generators = none ∧
    ∀ config : Config, config.gen_formula = "XYZ" →
      run_main config =
        MainResult.fatalError "Function generation method not found!" 1) :=
  ⟨by decide, spec_c6_formula_not_found "XYZ" (by decide)⟩

/-- A configuration with width and height 1, below the spec's minimum of 2. -/
def config_degenerate : Config :=
  { count := 0, c_init := none, size_x := 1, size_y := 1, max_i := 4,
    gen_formula := "SD" }

/-- Claim C7 (code behavior at the failing input): `main` performs no
dimension validation, so a configuration with `width = height = 1` is not
rejected — the formula lookup succeeds and rendering proceeds, invoking the
coordinate mapper with `axis_length = 1`.  There is no `InvalidDimensions`
path anywhere in the code. -/
theorem spec_c7_no_dimension_check :
    run_main config_degenerate =
      MainResult.rendered (eval_function config_degenerate formula.SD) ∧
    ∀ (msg : String) (code : ℕ),
      run_main config_degenerate ≠ MainResult.fatalError msg code := by
  have hlook : List.lookup config_degenerate.gen_formula generators =
      some formula.SD := by
    simp [config_degenerate, generators, List.lookup]
  constructor
  · unfold run_main
    rw [hlook]
  · intro msg code
    unfold run_main
    rw [hlook]
    simp

/-- Claim C9: the parsed CLI arguments are never threaded into the render
configuration — for any two argument vectors, `main` builds the identical
hard-coded configuration: 256×256 pixels, cap 1024, formula `"SD"`, no
`c_init`, output index 0. -/
theorem spec_c9_cli_args_ignored :
    ∀ cli_args other_args : Args,
      main_config cli_args = main_config other_args ∧
      main_config cli_args =
        { count := 0, c_init := none, size_x := 256, size_y := 256,
          max_i := 1024, gen_formula := "SD" } := by
  intro cli_args other_args
  exact ⟨rfl, rfl⟩
